import Mathlib

/-!
Verification of the rule-based complaint-analysis engine in
`src/agente_ia_simple/agente_ia_mejorado.py` (class `AgenteIAMejorado`) and the
input guard in `src/agente_ia_simple/gestor.py`.

The Python code is shallowly embedded: strings are Lean `String`s (lists of
unicode characters), Python `float` scores are modeled as exact rationals `ℚ`
(all constants in the source are decimal literals such as 1.5, 0.5, 0.3; an
exhaustive comparison of the float data path of `calcular_prioridad` against
exact rational arithmetic over every reachable combination of capped factor
counts shows the two agree on every output, so the rational model is
output-equivalent), and `datetime.now().isoformat()` is threaded as an explicit
oracle input `now_iso`.

Character classes (`\w`, `\s`, `\d`, upper/lower case) are modeled over the
character universe actually used by the program: ASCII plus the Latin-1
letters (which covers all Spanish text the pattern tables target).  Python's
`\w` additionally matches letters beyond Latin-1; this embedding classifies
those as non-word characters.
-/

namespace Denuncias

/-! ### Character-level primitives (Python `str` semantics) -/

/-- Lowercase cased letters in the modeled universe: ASCII `a`-`z` plus the
Latin-1 lowercase letters `ß`(223), `à`-`ö`(224-246), `ø`-`ÿ`(248-255) and the
letters `ª`(170), `µ`(181), `º`(186). -/
def isLowerCased (c : Char) : Bool :=
  let n := c.toNat
  (97 ≤ n && n ≤ 122) || (223 ≤ n && n ≤ 246) || (248 ≤ n && n ≤ 255) ||
  n = 170 || n = 181 || n = 186

/-- Uppercase cased letters: ASCII `A`-`Z` plus Latin-1 `À`-`Ö`(192-214) and
`Ø`-`Þ`(216-222). -/
def isUpperCased (c : Char) : Bool :=
  let n := c.toNat
  (65 ≤ n && n ≤ 90) || (192 ≤ n && n ≤ 214) || (216 ≤ n && n ≤ 222)

/-- Decimal digit, the `\d` class of the source's regexes. -/
def isDigitChar (c : Char) : Bool :=
  let n := c.toNat
  48 ≤ n && n ≤ 57

/-- Word character, the `\b`/`\w` classification used by the source's
`\b`-delimited regexes: letters, digits and underscore. -/
def isWordChar (c : Char) : Bool :=
  isLowerCased c || isUpperCased c || isDigitChar c || c.toNat = 95

/-- Whitespace, as recognized by Python's `str.split`/`str.strip` and the
regex class `\s`: tab, LF, VT, FF, CR, the ASCII separators 28-31, space,
NEL(133) and NBSP(160). -/
def pySpace (c : Char) : Bool :=
  let n := c.toNat
  (9 ≤ n && n ≤ 13) || (28 ≤ n && n ≤ 32) || n = 133 || n = 160

/-- Python `str.lower` on the modeled universe: ASCII `A`-`Z` and Latin-1
`À`-`Þ` (minus `×`) shift by 32 to their lowercase forms. -/
def toLowerChar (c : Char) : Char :=
  let n := c.toNat
  if (65 ≤ n && n ≤ 90) || (192 ≤ n && n ≤ 214) || (216 ≤ n && n ≤ 222) then
    Char.ofNat (n + 32)
  else c

/-- `mensaje.lower()` of the source, character by character. -/
def strToLower (s : String) : String :=
  ⟨s.data.map toLowerChar⟩

/-- Python `str.isupper()` for one word: it has at least one cased character
and no lowercase cased character. -/
def pyIsUpper (s : String) : Bool :=
  s.data.any (fun c => isLowerCased c || isUpperCased c) &&
  s.data.all (fun c => !isLowerCased c)

/-- Maximal runs of characters satisfying `keep`; the separator characters are
dropped.  `runsBy isWordChar` yields the word tokens of a text and
`runsBy (!pySpace ·)` is Python's `str.split()`. -/
def runsByAux (keep : Char → Bool) (acc : List Char) : List Char → List (List Char)
  | [] => if acc = [] then [] else [acc.reverse]
  | c :: rest =>
    if keep c then runsByAux keep (c :: acc) rest
    else (if acc = [] then [] else [acc.reverse]) ++ runsByAux keep [] rest

def runsBy (keep : Char → Bool) (l : List Char) : List (List Char) :=
  runsByAux keep [] l

/-- The word tokens (maximal `\w`-runs) of a character list. -/
def tokens (l : List Char) : List (List Char) :=
  runsBy isWordChar l

/-- Python `mensaje.split()`: maximal runs of non-whitespace characters. -/
def pySplit (s : String) : List String :=
  (runsBy (fun c => !pySpace c) s.data).map (fun w => ⟨w⟩)

/-- Non-overlapping left-to-right occurrence count, Python's
`str.count(needle)`.  The `skip` counter is the number of characters still to
be jumped over after a match was recorded. -/
def countSubstrGo (p : List Char) : List Char → Nat → Nat
  | [], _ => 0
  | _ :: rest, skip + 1 => countSubstrGo p rest skip
  | c :: rest, 0 =>
    if p ≠ [] ∧ p.isPrefixOf (c :: rest) then
      countSubstrGo p rest (p.length - 1) + 1
    else
      countSubstrGo p rest 0

def countSubstr (p l : List Char) : Nat :=
  countSubstrGo p l 0

/-- Python's substring containment test `needle in hay`. -/
def isSubstr (p : List Char) : List Char → Bool
  | [] => p.isEmpty
  | c :: rest => p.isPrefixOf (c :: rest) || isSubstr p rest

/-- `mensaje.count(palabra)` with both arguments as strings. -/
def pyCount (needle hay : String) : Nat :=
  countSubstr needle.data hay.data

/-- `palabra in mensaje` (substring containment) on strings. -/
def pyContains (needle hay : String) : Bool :=
  isSubstr needle.data hay.data

/-- Python `str.strip()`: remove leading and trailing whitespace. -/
def pyStrip (s : String) : String :=
  ⟨(s.data.dropWhile pySpace).reverse.dropWhile pySpace |>.reverse⟩

/-- Match count of a `\b(w1|w2|...|wn)\b` regex whose alternatives `ws` are all
plain words (only `\w` characters): such a regex matches exactly the maximal
word-character runs of the text that equal one of the alternatives, because the
two `\b` anchors force every match to be flanked by non-word characters or the
text ends.  This models `len(re.findall(pattern, text))` for every all-word
alternation pattern of the source. -/
def countWordPattern (ws : List String) (lowered : String) : Nat :=
  ((tokens lowered.data).filter (fun t => (ws.map String.data).contains t)).length

/-! ### Urgency detection (`detectar_urgencia`, source lines 189-232) -/

/-- Ordered urgency levels, `class NivelUrgencia(Enum)` of the source. -/
inductive NivelUrgencia where
  | BAJA
  | MEDIA
  | ALTA
  | CRITICA
  | EMERGENCIA
deriving DecidableEq, Repr

/-- The enum's integer payload (`NivelUrgencia.BAJA.value == 1`, ...). -/
def NivelUrgencia.value : NivelUrgencia → Nat
  | .BAJA => 1
  | .MEDIA => 2
  | .ALTA => 3
  | .CRITICA => 4
  | .EMERGENCIA => 5

/-- The enum member's name (`NivelUrgencia.BAJA.name == "BAJA"`). -/
def NivelUrgencia.name : NivelUrgencia → String
  | .BAJA => "BAJA"
  | .MEDIA => "MEDIA"
  | .ALTA => "ALTA"
  | .CRITICA => "CRITICA"
  | .EMERGENCIA => "EMERGENCIA"

/-- `self.patrones_urgencia_critica`: the word alternatives of the four
urgency regexes
`\b(emergencia|urgente|inmediato|ya|ahora|rápido)\b`,
`\b(peligro|amenaza|riesgo|violencia|agresión)\b`,
`\b(socorro|ayuda|auxilio|emergencia)\b`,
`\b(crítico|grave|serio|importante)\b`. -/
def patrones_urgencia_critica : List (List String) :=
  [["emergencia", "urgente", "inmediato", "ya", "ahora", "rápido"],
   ["peligro", "amenaza", "riesgo", "violencia", "agresión"],
   ["socorro", "ayuda", "auxilio", "emergencia"],
   ["crítico", "grave", "serio", "importante"]]

/-- `self.patrones_violencia`: the word alternatives of the four violence
regexes
`\b(golpe|pegar|lastimar|dañar|herir)\b`,
`\b(amenaza|intimidar|acosar|perseguir)\b`,
`\b(violencia|agresión|ataque|maltrato)\b`,
`\b(arma|cuchillo|pistola|navaja)\b`. -/
def patrones_violencia : List (List String) :=
  [["golpe", "pegar", "lastimar", "dañar", "herir"],
   ["amenaza", "intimidar", "acosar", "perseguir"],
   ["violencia", "agresión", "ataque", "maltrato"],
   ["arma", "cuchillo", "pistola", "navaja"]]

/-- `palabras_criticas` of `detectar_urgencia`. -/
def palabras_criticas : List String :=
  ["urgente", "inmediato", "emergencia", "ayuda", "socorro"]

/-- The accumulated `puntuacion_urgencia` local variable of
`detectar_urgencia` (lines 191-220): 2 per urgency-pattern match, 3 per
violence-pattern match, then for each critical keyword contained in the
lowered text its occurrence count times 1.5, then +2 for three or more `!`
characters in the raw text, then +1 for three or more all-caps words of
length > 2 in the raw text. -/
def puntuacion_urgencia (mensaje : String) : ℚ :=
  let mensaje_lower := strToLower mensaje
  let s1 : ℚ := patrones_urgencia_critica.foldl
    (fun acc ws => acc + (countWordPattern ws mensaje_lower : ℚ) * 2) 0
  let s2 : ℚ := patrones_violencia.foldl
    (fun acc ws => acc + (countWordPattern ws mensaje_lower : ℚ) * 3) s1
  let s3 : ℚ := palabras_criticas.foldl
    (fun acc palabra =>
      if pyContains palabra mensaje_lower then
        acc + (pyCount palabra mensaje_lower : ℚ) * 1.5
      else acc) s2
  let exclamaciones := pyCount "!" mensaje
  let s4 : ℚ := if 3 ≤ exclamaciones then s3 + 2 else s3
  let palabras_mayusculas :=
    ((pySplit mensaje).filter (fun p => pyIsUpper p && decide (2 < p.length))).length
  if 3 ≤ palabras_mayusculas then s4 + 1 else s4

/-- The threshold cascade at the end of `detectar_urgencia` (lines 223-232). -/
def nivelFromScore (q : ℚ) : NivelUrgencia :=
  if 12 ≤ q then .EMERGENCIA
  else if 8 ≤ q then .CRITICA
  else if 5 ≤ q then .ALTA
  else if 2 ≤ q then .MEDIA
  else .BAJA

/-- `detectar_urgencia` (lines 189-232). -/
def detectar_urgencia (mensaje : String) : NivelUrgencia :=
  nivelFromScore (puntuacion_urgencia mensaje)

/-! ### A small regex matcher

Some of the source's patterns are not plain `\b`-word alternations: they
contain `\s*`, `\d{m,n}`, `\d+` or nested groups.  Those patterns are embedded
through the following backtracking matcher, which mirrors Python `re`
semantics for this fragment: alternatives are tried left to right, quantifiers
are greedy, the first success wins, and `re.findall` scans left to right
taking non-overlapping matches and restarting one character further when no
match starts at the current position.  `lit` compares case-insensitively
(every call site either lowercases the text first or passes
`re.IGNORECASE`). -/

inductive RE where
  | wb
  | lit (s : String)
  | cls (p : Char → Bool)
  | starCls (p : Char → Bool)
  | plusCls (p : Char → Bool)
  | repCls (p : Char → Bool) (lo hi : Nat)
  | seq (a b : RE)
  | alt (a b : RE)
  | cap (r : RE)

/-- Length of the run of `p`-characters at the head of the list. -/
def leadCount (p : Char → Bool) : List Char → Nat
  | [] => 0
  | c :: rest => if p c then leadCount p rest + 1 else 0

/-- The character just before the current position after consuming `m`. -/
def lastOr (prev : Option Char) (m : List Char) : Option Char :=
  match m.getLast? with
  | some c => some c
  | none => prev

def isWordOpt : Option Char → Bool
  | none => false
  | some c => isWordChar c

def headIsWord : List Char → Bool
  | [] => false
  | c :: _ => isWordChar c

/-- All ways the expression can match a prefix of `l`, as
`(matched, captures, rest)` triples in backtracking preference order (the
head is the match Python's engine commits to).  `prev` is the character
immediately before the current position, for `\b`. -/
def matchRE : RE → Option Char → List Char → List (List Char × List (List Char) × List Char)
  | .wb, prev, l =>
    if isWordOpt prev != headIsWord l then [([], [], l)] else []
  | .lit s, _, l =>
    if s.data.length ≤ l.length ∧
        (l.take s.data.length).map toLowerChar = s.data.map toLowerChar then
      [(l.take s.data.length, [], l.drop s.data.length)]
    else []
  | .cls p, _, l =>
    match l with
    | [] => []
    | c :: r => if p c then [([c], [], r)] else []
  | .starCls p, _, l =>
    let n := leadCount p l
    (List.range (n + 1)).reverse.map (fun k => (l.take k, [], l.drop k))
  | .plusCls p, _, l =>
    let n := leadCount p l
    ((List.range (n + 1)).reverse.filter (fun k => 1 ≤ k)).map
      (fun k => (l.take k, [], l.drop k))
  | .repCls p lo hi, _, l =>
    let n := min (leadCount p l) hi
    ((List.range (n + 1)).reverse.filter (fun k => lo ≤ k)).map
      (fun k => (l.take k, [], l.drop k))
  | .seq a b, prev, l =>
    (matchRE a prev l).flatMap (fun r1 =>
      (matchRE b (lastOr prev r1.1) r1.2.2).map (fun r2 =>
        (r1.1 ++ r2.1, r1.2.1 ++ r2.2.1, r2.2.2)))
  | .alt a b, prev, l => matchRE a prev l ++ matchRE b prev l
  | .cap r, prev, l =>
    (matchRE r prev l).map (fun t => (t.1, t.2.1 ++ [t.1], t.2.2))

/-- `re.findall` scanning: at each position take the engine's first match if
one starts here (recording it and resuming after it), otherwise move one
character to the right.  None of the embedded patterns can match the empty
string, so a zero-width match (skipped here) never occurs.  The fuel is an
upper bound on the number of scan steps; `length + 1` always suffices because
every step moves right by at least one character. -/
def reScanAux (re : RE) : Nat → Option Char → List Char → List (List Char × List (List Char))
  | 0, _, _ => []
  | _ + 1, _, [] => []
  | fuel + 1, prev, c :: rest =>
    match matchRE re prev (c :: rest) with
    | [] => reScanAux re fuel (some c) rest
    | (m, caps, r) :: _ =>
      if m.isEmpty then reScanAux re fuel (some c) rest
      else (m, caps) :: reScanAux re fuel (lastOr prev m) r

/-- The matches (with captures) of `re.findall(pattern, s)`. -/
def reFindall (re : RE) (s : String) : List (List Char × List (List Char)) :=
  reScanAux re (s.data.length + 1) none s.data

/-- `len(re.findall(pattern, s))`. -/
def reCount (re : RE) (s : String) : Nat :=
  (reFindall re s).length

/-! ### Category suggestion (`sugerir_categoria_mejorada`, lines 234-262,
and helpers `_calcular_confianza_categoria`, `_get_categorias_alternativas`,
lines 527-552) -/

/-- One pattern of a category's pattern group: either a plain
`\b(w1|...|wn)\b` word alternation or a regex needing the matcher. -/
inductive Patron where
  | palabras (ws : List String)
  | regex (r : RE)

def Patron.count (p : Patron) (lowered : String) : Nat :=
  match p with
  | .palabras ws => countWordPattern ws lowered
  | .regex r => reCount r lowered

/-- The third `discriminacion` pattern
`\b(trato\s*diferente|exclusión|marginación)\b`. -/
def re_trato_diferente : RE :=
  .seq .wb (.seq
    (.alt (.seq (.lit "trato") (.seq (.starCls pySpace) (.lit "diferente")))
      (.alt (.lit "exclusión") (.lit "marginación")))
    .wb)

/-- The second `corrupcion` pattern
`\b(favoritismo|nepotismo|tráfico\s*de\s*influencias)\b`. -/
def re_favoritismo : RE :=
  .seq .wb (.seq
    (.alt (.lit "favoritismo")
      (.alt (.lit "nepotismo")
        (.seq (.lit "tráfico")
          (.seq (.starCls pySpace)
            (.seq (.lit "de") (.seq (.starCls pySpace) (.lit "influencias")))))))
    .wb)

/-- `self.patrones_categorias` (lines 90-121), in dict insertion order. -/
def patrones_categorias : List (String × List Patron) :=
  [("acoso_laboral",
    [.palabras ["acoso", "hostigamiento", "intimidación", "presión"],
     .palabras ["jefe", "supervisor", "compañero", "colega"],
     .palabras ["trabajo", "laboral", "oficina", "empleado"]]),
   ("discriminacion",
    [.palabras ["discriminación", "racismo", "sexismo", "prejuicio"],
     .palabras ["género", "raza", "edad", "religión", "orientación"],
     .regex re_trato_diferente]),
   ("fraude",
    [.palabras ["fraude", "estafa", "robo", "hurto", "malversación"],
     .palabras ["dinero", "efectivo", "fondos", "recursos", "presupuesto"],
     .palabras ["factura", "cuenta", "pago", "cobro"]]),
   ("seguridad",
    [.palabras ["seguridad", "riesgo", "peligro", "accidente"],
     .palabras ["equipo", "herramienta", "máquina", "instalación"],
     .palabras ["norma", "protocolo", "procedimiento", "regla"]]),
   ("violencia",
    [.palabras ["violencia", "agresión", "golpe", "maltrato"],
     .palabras ["físico", "verbal", "psicológico", "sexual"],
     .palabras ["amenaza", "intimidación", "hostigamiento"]]),
   ("corrupcion",
    [.palabras ["corrupción", "soborno", "coima", "mordida"],
     .regex re_favoritismo,
     .palabras ["ilegal", "irregular", "indebido", "inapropiado"]])]

/-- The per-category raw pattern score (the inner `for patron in patrones`
loop of lines 240-244 and of `_get_categorias_alternativas`). -/
def categoria_puntuacion_base (pats : List Patron) (ml : String) : Nat :=
  (pats.map (fun p => p.count ml)).sum

/-- The contextual bonus chain of lines 247-252. -/
def bonus_contexto (categoria : String) (ml : String) : Nat :=
  if categoria = "acoso_laboral" ∧ ["trabajo", "oficina", "jefe"].any (fun w => pyContains w ml) then 2
  else if categoria = "violencia" ∧ ["golpe", "amenaza", "miedo"].any (fun w => pyContains w ml) then 3
  else if categoria = "fraude" ∧ ["dinero", "factura", "pago"].any (fun w => pyContains w ml) then 2
  else 0

/-- The `puntuaciones` dict of `sugerir_categoria_mejorada` (base score plus
contextual bonus), in insertion order. -/
def puntuaciones_categorias (mensaje : String) : List (String × Nat) :=
  let ml := strToLower mensaje
  patrones_categorias.map (fun cp => (cp.1, categoria_puntuacion_base cp.2 ml + bonus_contexto cp.1 ml))

/-- Python `max(xs, key=value)`: the first entry attaining the maximal value. -/
def pyMaxByValue : List (String × Nat) → Option (String × Nat)
  | [] => none
  | x :: xs => some (xs.foldl (fun best y => if best.2 < y.2 then y else best) x)

/-- `sugerir_categoria_mejorada` (lines 234-262). -/
def sugerir_categoria_mejorada (mensaje : String) : String :=
  match pyMaxByValue (puntuaciones_categorias mensaje) with
  | some best => if 0 < best.2 then best.1 else "otros"
  | none => "otros"

/-- Python's built-in `round(q)`: round half to even (banker's rounding). -/
def pythonRound (q : ℚ) : ℤ :=
  let f := ⌊q⌋
  if q - f < 1 / 2 then f
  else if (1 / 2 : ℚ) < q - f then f + 1
  else if f % 2 = 0 then f else f + 1

/-- Python `round(q, 2)`. -/
def pythonRound2 (q : ℚ) : ℚ :=
  (pythonRound (q * 100) : ℚ) / 100

/-- Python `round(q, 1)`. -/
def pythonRound1 (q : ℚ) : ℚ :=
  (pythonRound (q * 10) : ℚ) / 10

/-- `_calcular_confianza_categoria` (lines 527-538): 0.5 for a category not in
the pattern table, otherwise the raw match count divided by the number of
patterns of the category, clamped to 1 and rounded to two decimals. -/
def _calcular_confianza_categoria (mensaje categoria : String) : ℚ :=
  match patrones_categorias.find? (fun cp => cp.1 == categoria) with
  | none => 0.5
  | some cp =>
    let ml := strToLower mensaje
    let nmatches := (cp.2.map (fun p => p.count ml)).sum
    pythonRound2 (min ((nmatches : ℚ) / (cp.2.length : ℚ)) 1)

/-- The bonus-free score list of `_get_categorias_alternativas`
(lines 540-548), keeping only categories with nonzero score. -/
def puntuaciones_alternativas (mensaje : String) : List (String × Nat) :=
  let ml := strToLower mensaje
  (patrones_categorias.map (fun cp => (cp.1, categoria_puntuacion_base cp.2 ml))).filter
    (fun p => 0 < p.2)

/-- `_get_categorias_alternativas` (lines 540-552): Python's stable
`sorted(..., key=score, reverse=True)` is insertion sort with the
ties-keep-original-order descending relation, then the top 3 names. -/
def _get_categorias_alternativas (mensaje : String) : List String :=
  (((puntuaciones_alternativas mensaje).insertionSort (fun a b => b.2 ≤ a.2)).take 3).map Prod.fst

/-! ### Priority (`calcular_prioridad`, lines 264-288) -/

/-- The time-factor pattern `\b(ahora|hoy|ayer|esta\s*(mañana|tarde))\b` of
line 276 (the inner group does not affect the match count). -/
def re_tiempo_inmediato : RE :=
  .seq .wb (.seq
    (.alt (.lit "ahora")
      (.alt (.lit "hoy")
        (.alt (.lit "ayer")
          (.seq (.lit "esta")
            (.seq (.starCls pySpace) (.alt (.lit "mañana") (.lit "tarde")))))))
    .wb)

/-- `calcular_prioridad` (lines 264-288): urgency rank plus four capped
factors, capped at 5, then Python `round`. -/
def calcular_prioridad (mensaje : String) (urgencia : NivelUrgencia) : ℤ :=
  let prioridad_base : ℚ := urgencia.value
  let ml := strToLower mensaje
  let evidencias := countWordPattern ["prueba", "evidencia", "documento", "testigo"] ml
  let f1 : ℚ := min ((evidencias : ℚ) * 0.5) 1
  let tiempo_inmediato := reCount re_tiempo_inmediato ml
  let f2 : ℚ := min ((tiempo_inmediato : ℚ) * 0.3) 0.8
  let personas := countWordPattern ["persona", "gente", "todos", "muchos", "varios"] ml
  let f3 : ℚ := min ((personas : ℚ) * 0.2) 0.6
  let impacto_org := countWordPattern ["empresa", "organización", "departamento", "todos"] ml
  let f4 : ℚ := min ((impacto_org : ℚ) * 0.3) 0.7
  let factores : ℚ := 0 + f1 + f2 + f3 + f4
  pythonRound (min (prioridad_base + factores) 5)

/-! ### Automatic alerts (`generar_alertas`, lines 414-469) -/

/-- One alert dict of `generar_alertas`. -/
structure Alerta where
  tipo : String
  mensaje : String
  prioridad : String
  accion_sugerida : String
deriving DecidableEq, Repr

/-- `class TipoAlerta(Enum)` of the source. -/
inductive TipoAlerta where
  | URGENCIA_CRITICA
  | CONTENIDO_VIOLENTO
  | AMENAZA_DIRECTA
  | SITUACION_RIESGO
  | EVIDENCIA_SOLIDA
deriving DecidableEq

/-- `self.umbrales_alerta` (lines 125-131). -/
def umbrales_alerta : TipoAlerta → Nat
  | .URGENCIA_CRITICA => 3
  | .CONTENIDO_VIOLENTO => 2
  | .AMENAZA_DIRECTA => 1
  | .SITUACION_RIESGO => 2
  | .EVIDENCIA_SOLIDA => 3

/-- `sum(1 for patron in self.patrones_violencia if re.search(patron, ...))`
(lines 429-430): the number of violence pattern groups with at least one
match. -/
def violencia_patrones_presentes (ml : String) : Nat :=
  (patrones_violencia.filter (fun ws => decide (0 < countWordPattern ws ml))).length

/-- The direct-threat pattern
`\b(amenaza|amenazar|lastimar|dañar|hacer\s*daño)\b` of line 440. -/
def re_amenazas : RE :=
  .seq .wb (.seq
    (.alt (.lit "amenaza")
      (.alt (.lit "amenazar")
        (.alt (.lit "lastimar")
          (.alt (.lit "dañar")
            (.seq (.lit "hacer") (.seq (.starCls pySpace) (.lit "daño")))))))
    .wb)

/-- `generar_alertas` (lines 414-469).  The `prioridad` argument is unused in
the source body as well. -/
def generar_alertas (mensaje : String) (urgencia : NivelUrgencia) (_prioridad : ℤ) : List Alerta :=
  let mensaje_lower := strToLower mensaje
  (if umbrales_alerta .URGENCIA_CRITICA ≤ urgencia.value then
    [{ tipo := "urgencia_critica",
       mensaje := "Denuncia con urgencia " ++ urgencia.name ++ " - Requiere atención inmediata",
       prioridad := "alta",
       accion_sugerida := "Contactar inmediatamente al denunciante o autoridades competentes" }]
   else [])
  ++ (if umbrales_alerta .CONTENIDO_VIOLENTO ≤ violencia_patrones_presentes mensaje_lower then
    [{ tipo := "contenido_violento",
       mensaje := "Contenido con indicadores de violencia detectados",
       prioridad := "alta",
       accion_sugerida := "Evaluar riesgo para la seguridad personal del denunciante" }]
   else [])
  ++ (if umbrales_alerta .AMENAZA_DIRECTA ≤ reCount re_amenazas mensaje_lower then
    [{ tipo := "amenaza_directa",
       mensaje := "Posible amenaza directa identificada",
       prioridad := "crítica",
       accion_sugerida := "Notificar a seguridad y considerar medidas de protección" }]
   else [])
  ++ (if umbrales_alerta .SITUACION_RIESGO ≤
        countWordPattern ["peligro", "riesgo", "inseguro", "vulnerable", "expuesto"] mensaje_lower then
    [{ tipo := "situacion_riesgo",
       mensaje := "Situación de riesgo potencial detectada",
       prioridad := "media",
       accion_sugerida := "Evaluar medidas de seguridad preventivas" }]
   else [])
  ++ (if umbrales_alerta .EVIDENCIA_SOLIDA ≤
        countWordPattern ["prueba", "evidencia", "documento", "testigo", "foto", "video"] mensaje_lower then
    [{ tipo := "evidencia_solida",
       mensaje := "Denuncia con evidencia sólida disponible",
       prioridad := "media",
       accion_sugerida := "Priorizar para investigación detallada" }]
   else [])

/-- `_requiere_atencion_inmediata` (lines 578-584). -/
def _requiere_atencion_inmediata (urgencia : NivelUrgencia) (alertas : List Alerta) : Bool :=
  if 4 ≤ urgencia.value then true
  else decide (0 < (alertas.filter (fun a => ["crítica", "alta"].contains a.prioridad)).length)

/-! ### Evidence evaluation (`evaluar_evidencias`, lines 368-412) -/

structure Evidencias where
  tipos_evidencia : List (String × Nat)
  puntuacion_evidencia : ℚ
  nivel_credibilidad : String
  especificidad : Nat
  requiere_mas_evidencia : Bool
deriving DecidableEq, Repr

/-- The `tipos_evidencia` dict of `evaluar_evidencias` (lines 372-377); every
pattern is an all-word alternation. -/
def tipos_evidencia_tabla : List (String × List String) :=
  [("documental", ["documento", "papel", "archivo", "reporte", "email", "mensaje"]),
   ("visual", ["foto", "imagen", "video", "grabación", "captura"]),
   ("testimonial", ["testigo", "vio", "escuchó", "presenció", "dijo"]),
   ("física", ["objeto", "cosa", "elemento", "marca", "señal"])]

/-- The hour-like specificity pattern `\d{1,2}[:/]\d{1,2}` of line 390 (no
word boundaries), applied to the raw message. -/
def re_horas_simple : RE :=
  .seq (.repCls isDigitChar 1 2)
    (.seq (.cls (fun c => c == ':' || c == '/')) (.repCls isDigitChar 1 2))

/-- The date-like specificity pattern of line 391: `\d{1,2}`, a separator in
the class slash-or-hyphen, `\d{1,2}`, another such separator, `\d{2,4}`;
applied to the raw message. -/
def re_fechas_simple : RE :=
  .seq (.repCls isDigitChar 1 2)
    (.seq (.cls (fun c => c == '/' || c == '-'))
      (.seq (.repCls isDigitChar 1 2)
        (.seq (.cls (fun c => c == '/' || c == '-')) (.repCls isDigitChar 2 4))))

/-- The numbered-place pattern `\b(sala|oficina|piso)\s*\d+\b` of line 392,
applied to the lowered message. -/
def re_lugar_numerado : RE :=
  .seq .wb (.seq
    (.alt (.lit "sala") (.alt (.lit "oficina") (.lit "piso")))
    (.seq (.starCls pySpace) (.seq (.plusCls isDigitChar) .wb)))

/-- `evaluar_evidencias` (lines 368-412). -/
def evaluar_evidencias (mensaje : String) : Evidencias :=
  let ml := strToLower mensaje
  let encontradas :=
    (tipos_evidencia_tabla.map (fun tp => (tp.1, countWordPattern tp.2 ml))).filter
      (fun x => 0 < x.2)
  let puntuacion_parcial := (encontradas.map Prod.snd).sum
  let especificidad :=
    reCount re_horas_simple mensaje + reCount re_fechas_simple mensaje +
    reCount re_lugar_numerado ml
  let puntuacion_total : ℚ := (puntuacion_parcial : ℚ) + (especificidad : ℚ) * 0.5
  let credibilidad :=
    if 5 ≤ puntuacion_total then "alta"
    else if 3 ≤ puntuacion_total then "media"
    else if 1 ≤ puntuacion_total then "baja"
    else "muy_baja"
  { tipos_evidencia := encontradas,
    puntuacion_evidencia := pythonRound1 puntuacion_total,
    nivel_credibilidad := credibilidad,
    especificidad := especificidad,
    requiere_mas_evidencia := decide (puntuacion_total < 2) }

/-! ### Sentiment analysis (`analizar_sentimientos`, lines 328-366) -/

structure Sentimientos where
  emociones_detectadas : List (String × Nat)
  polaridad : String
  intensidad : String
  requiere_apoyo_emocional : Bool
deriving DecidableEq, Repr

/-- `self.patrones_emociones` (lines 80-86): each emotion has a one-element
list of all-word alternation patterns. -/
def patrones_emociones : List (String × List (List String)) :=
  [("miedo", [["miedo", "temor", "asustado", "aterrado", "pánico"]]),
   ("enojo", [["enojado", "furioso", "molesto", "indignado", "irritado"]]),
   ("tristeza", [["triste", "deprimido", "desanimado", "abatido"]]),
   ("ansiedad", [["ansioso", "nervioso", "preocupado", "estresado"]]),
   ("frustración", [["frustrado", "desesperado", "harto", "cansado"]])]

/-- `analizar_sentimientos` (lines 328-366). -/
def analizar_sentimientos (mensaje : String) : Sentimientos :=
  let ml := strToLower mensaje
  let detectadas : List (String × Nat) :=
    (patrones_emociones.map
      (fun ep => (ep.1, (ep.2.map (fun ws => countWordPattern ws ml)).sum))).filterMap
      (fun x => if 0 < x.2 then some (x.1, min x.2 5) else none)
  let palabras_negativas := ["malo", "terrible", "horrible", "odio", "detesto", "molesto"]
  let palabras_positivas := ["bueno", "bien", "excelente", "contento", "feliz", "satisfecho"]
  let negatividad := (palabras_negativas.filter (fun w => pyContains w ml)).length
  let positividad := (palabras_positivas.filter (fun w => pyContains w ml)).length
  let polaridad :=
    if positividad < negatividad then "negativa"
    else if negatividad < positividad then "positiva"
    else "neutral"
  let intensidad_total : Nat := (detectadas.map Prod.snd).sum
  let nivel :=
    if intensidad_total ≤ 2 then "baja"
    else if intensidad_total ≤ 5 then "media"
    else "alta"
  { emociones_detectadas := detectadas,
    polaridad := polaridad,
    intensidad := nivel,
    requiere_apoyo_emocional :=
      decide (4 ≤ intensidad_total) || detectadas.any (fun x => x.1 == "miedo") }

/-! ### Entity extraction (`extraer_entidades`, lines 290-326)

These patterns run over the raw message with `re.IGNORECASE`, and
`re.findall` returns group contents: for single-group patterns the matched
string, for the two-group time patterns a `(group1, group2)` pair where
`group1` always spans the whole match (the `\b` anchors are zero-width) and
`group2` is the inner group's text or `''`.  Python deduplicates each entity
list through `list(set(...))`, whose iteration order is hash-dependent; the
embedding models it as first-occurrence deduplication (`eraseDups`), which
keeps the same membership. -/

structure Entidades where
  tiempos : List (String ⊕ (String × String))
  lugares : List String
  personas : List String
  evidencias : List String
deriving DecidableEq, Repr

/-- Time pattern `\b(\d{1,2}[:/]\d{1,2}|\d{1,2}\s*(am|pm))\b` (line 65). -/
def re_horas : RE :=
  .seq .wb (.seq
    (.alt
      (.seq (.repCls isDigitChar 1 2)
        (.seq (.cls (fun c => c == ':' || c == '/')) (.repCls isDigitChar 1 2)))
      (.seq (.repCls isDigitChar 1 2)
        (.seq (.starCls pySpace) (.cap (.alt (.lit "am") (.lit "pm"))))))
    .wb)

/-- Date pattern of line 66: `\b`, then `\d{1,2}`, a slash-or-hyphen
separator, `\d{1,2}`, another separator, `\d{2,4}`, then `\b`. -/
def re_fechas : RE :=
  .seq .wb (.seq
    (.seq (.repCls isDigitChar 1 2)
      (.seq (.cls (fun c => c == '/' || c == '-'))
        (.seq (.repCls isDigitChar 1 2)
          (.seq (.cls (fun c => c == '/' || c == '-')) (.repCls isDigitChar 2 4)))))
    .wb)

/-- Relative-day pattern
`\b(ayer|hoy|mañana|anoche|esta\s*(mañana|tarde|noche))\b` (line 67). -/
def re_dias_relativos : RE :=
  .seq .wb (.seq
    (.alt (.lit "ayer")
      (.alt (.lit "hoy")
        (.alt (.lit "mañana")
          (.alt (.lit "anoche")
            (.seq (.lit "esta")
              (.seq (.starCls pySpace)
                (.cap (.alt (.lit "mañana") (.alt (.lit "tarde") (.lit "noche"))))))))))
    .wb)

/-- Numbered-place pattern `\b(piso\s*\d+|planta\s*\d+|edificio)\b`
(line 74). -/
def re_pisos : RE :=
  .seq .wb (.seq
    (.alt (.seq (.lit "piso") (.seq (.starCls pySpace) (.plusCls isDigitChar)))
      (.alt (.seq (.lit "planta") (.seq (.starCls pySpace) (.plusCls isDigitChar)))
        (.lit "edificio")))
    .wb)

/-- Nearby-place pattern `\b(cerca\s*de|junto\s*a|en\s*el|en\s*la)\b`
(line 76). -/
def re_cercanias : RE :=
  .seq .wb (.seq
    (.alt (.seq (.lit "cerca") (.seq (.starCls pySpace) (.lit "de")))
      (.alt (.seq (.lit "junto") (.seq (.starCls pySpace) (.lit "a")))
        (.alt (.seq (.lit "en") (.seq (.starCls pySpace) (.lit "el")))
          (.seq (.lit "en") (.seq (.starCls pySpace) (.lit "la"))))))
    .wb)

/-- Matches of an all-word alternation pattern on the raw message with
`re.IGNORECASE`: the maximal word runs whose lowercasing is an alternative,
returned in original spelling (as `re.findall` does). -/
def findWordMatches (ws : List String) (s : String) : List String :=
  ((tokens s.data).filter
    (fun t => (ws.map String.data).contains (t.map toLowerChar))).map (fun t => ⟨t⟩)

/-- A two-group match as the `(group1, group2)` pair `re.findall` yields. -/
def matchToPair (mc : List Char × List (List Char)) : String ⊕ (String × String) :=
  Sum.inr (⟨mc.1⟩, (mc.2.head?.map fun c => (⟨c⟩ : String)).getD "")

/-- First char uppercase test `palabra[0].isupper()` (split words are
nonempty). -/
def headIsUpperCased (s : String) : Bool :=
  match s.data with
  | [] => false
  | c :: _ => isUpperCased c

/-- `extraer_entidades` (lines 290-326). -/
def extraer_entidades (mensaje : String) : Entidades :=
  let tiempos :=
    (reFindall re_horas mensaje).map matchToPair
    ++ (reFindall re_fechas mensaje).map (fun mc => Sum.inl (⟨mc.1⟩ : String))
    ++ (reFindall re_dias_relativos mensaje).map matchToPair
    ++ (findWordMatches
          ["lunes", "martes", "miércoles", "jueves", "viernes", "sábado", "domingo"]
          mensaje).map Sum.inl
  let lugares :=
    findWordMatches ["oficina", "sala", "baño", "estacionamiento", "pasillo"] mensaje
    ++ (reFindall re_pisos mensaje).map (fun mc => (⟨mc.1⟩ : String))
    ++ findWordMatches ["departamento", "área", "sección", "división"] mensaje
    ++ (reFindall re_cercanias mensaje).map (fun mc => (⟨mc.1⟩ : String))
  let evidencias :=
    findWordMatches ["prueba", "evidencia", "documento", "foto", "video"] mensaje
    ++ findWordMatches ["testigo", "vio", "escuchó", "presenció"] mensaje
    ++ findWordMatches ["fecha", "hora", "día", "momento"] mensaje
    ++ findWordMatches ["lugar", "ubicación", "sitio", "donde"] mensaje
    ++ findWordMatches ["nombre", "persona", "quien", "sujeto"] mensaje
  let palabras := pySplit mensaje
  let personas :=
    ((palabras.enum).filter (fun ia =>
      0 < ia.1 && headIsUpperCased ia.2 && decide (2 < ia.2.length) &&
      !(["que", "pero", "porque", "cuando", "donde"].contains (strToLower ia.2)))).map
      Prod.snd
  { tiempos := tiempos.eraseDups,
    lugares := lugares.eraseDups,
    personas := personas.eraseDups,
    evidencias := evidencias.eraseDups }

/-! ### Recommendations and summary helpers (lines 471-620) -/

/-- `generar_recomendaciones` (lines 471-514); the final `list(set(...))`
deduplication is modeled as `eraseDups` (membership-equal; the source itself
documents that the order is not guaranteed). -/
def generar_recomendaciones (urgencia : NivelUrgencia) (categoria : String)
    (evidencias : Evidencias) (alertas : List Alerta) : List String :=
  let r1 : List String :=
    if 4 ≤ urgencia.value then
      ["🚨 ACCIÓN INMEDIATA: Contactar al denunciante en las próximas 2 horas",
       "📞 Notificar a autoridades competentes si hay riesgo inmediato"]
    else if 3 ≤ urgencia.value then
      ["⏰ Responder dentro de las próximas 24 horas",
       "🔍 Iniciar investigación preliminar"]
    else []
  let r2 : List String :=
    if categoria = "violencia" then
      ["🛡️ Evaluar necesidad de medidas de protección",
       "👥 Involucrar a recursos humanos y seguridad"]
    else if categoria = "fraude" then
      ["💰 Revisar registros financieros relacionados",
       "🔒 Asegurar documentación contable"]
    else if categoria = "acoso_laboral" then
      ["📋 Documentar patrones de comportamiento",
       "🤝 Ofrecer apoyo psicológico al denunciante"]
    else []
  let r3 : List String :=
    if evidencias.nivel_credibilidad = "alta" then
      ["📁 Recopilar y preservar evidencias mencionadas",
       "⚖️ Considerar para proceso formal de investigación"]
    else if evidencias.requiere_mas_evidencia then
      ["🔍 Solicitar evidencia adicional al denunciante",
       "👥 Buscar testigos o fuentes corroborativas"]
    else []
  let r4 : List String :=
    alertas.flatMap (fun a =>
      if a.prioridad = "crítica" then ["🚨 CRÍTICO: " ++ a.accion_sugerida]
      else if a.prioridad = "alta" then ["⚠️ ALTA: " ++ a.accion_sugerida]
      else [])
  let r5 : List String :=
    ["📝 Registrar todas las acciones tomadas",
     "🔄 Programar seguimiento según cronograma establecido"]
  (r1 ++ r2 ++ r3 ++ r4 ++ r5).eraseDups

/-- `_get_descripcion_urgencia` (lines 516-525). -/
def _get_descripcion_urgencia : NivelUrgencia → String
  | .BAJA => "Situación que puede esperar proceso normal"
  | .MEDIA => "Requiere atención en tiempo razonable"
  | .ALTA => "Necesita atención prioritaria"
  | .CRITICA => "Requiere acción inmediata"
  | .EMERGENCIA => "EMERGENCIA - Acción inmediata crítica"

/-- `_get_nivel_prioridad` (lines 554-565). -/
def _get_nivel_prioridad (prioridad : ℤ) : String :=
  if 5 ≤ prioridad then "EMERGENCIA"
  else if 4 ≤ prioridad then "ALTA"
  else if 3 ≤ prioridad then "MEDIA"
  else if 2 ≤ prioridad then "BAJA"
  else "MÍNIMA"

/-- `_get_justificacion_prioridad` (lines 567-576). -/
def _get_justificacion_prioridad (prioridad : ℤ) : String :=
  if prioridad = 5 then "Múltiples factores críticos detectados"
  else if prioridad = 4 then "Urgencia alta con factores agravantes"
  else if prioridad = 3 then "Situación importante que requiere atención"
  else if prioridad = 2 then "Caso que merece seguimiento regular"
  else if prioridad = 1 then "Situación menor para proceso normal"
  else "Evaluación estándar"

/-- `_calcular_veracidad` (lines 586-597). -/
def _calcular_veracidad (evidencias : Evidencias) (entidades : Entidades) : ℚ :=
  let puntuacion_base := evidencias.puntuacion_evidencia
  let bonus_entidades : ℚ :=
    (entidades.tiempos.length : ℚ) * 0.2 + (entidades.lugares.length : ℚ) * 0.3 +
    (entidades.personas.length : ℚ) * 0.1
  pythonRound2 ((min (puntuacion_base + bonus_entidades) 10) / 10)

/-- `_generar_resumen_ejecutivo` (lines 599-620). -/
def _generar_resumen_ejecutivo (mensaje : String) (urgencia : NivelUrgencia)
    (categoria : String) (alertas : List Alerta) : String :=
  let longitud := (pySplit mensaje).length
  let resumen :=
    "Denuncia de " ++ (categoria.replace "_" " ") ++ " con urgencia " ++
    (strToLower urgencia.name)
  let tipos_alerta := alertas.map Alerta.tipo
  let resumen :=
    if alertas ≠ [] then
      if tipos_alerta.contains "urgencia_critica" then
        resumen ++ " - REQUIERE ATENCIÓN INMEDIATA"
      else if tipos_alerta.contains "contenido_violento" then
        resumen ++ " - Contiene indicadores de violencia"
      else resumen
    else resumen
  let resumen := resumen ++ ". Mensaje de " ++ toString longitud ++ " palabras"
  if 200 < longitud then resumen ++ " con descripción detallada"
  else if longitud < 50 then resumen ++ " - requiere más información"
  else resumen

/-! ### The composite analysis (`analizar_denuncia_completa`, lines 133-187) -/

structure InfoUrgencia where
  nivel : String
  valor : Nat
  descripcion : String
deriving DecidableEq, Repr

structure InfoCategoria where
  sugerida : String
  confianza : ℚ
  alternativas : List String
deriving DecidableEq, Repr

structure InfoPrioridad where
  puntuacion : ℤ
  nivel : String
  justificacion : String
deriving DecidableEq, Repr

structure AnalisisCompleto where
  timestamp_analisis : String
  urgencia : InfoUrgencia
  categoria : InfoCategoria
  prioridad : InfoPrioridad
  entidades : Entidades
  sentimientos : Sentimientos
  evidencias : Evidencias
  alertas : List Alerta
  recomendaciones : List String
  requiere_atencion_inmediata : Bool
  puntuacion_veracidad : ℚ
  resumen_ejecutivo : String
deriving DecidableEq, Repr

/-- `analizar_denuncia_completa` (lines 133-187).  The wall clock read
`datetime.now().isoformat()` on line 144 is threaded as the explicit argument
`now_iso`; the optional `categoria_sugerida` parameter of the source is never
used in its body and is omitted. -/
def analizar_denuncia_completa (mensaje : String) (now_iso : String) : AnalisisCompleto :=
  let urgencia := detectar_urgencia mensaje
  let categoria := sugerir_categoria_mejorada mensaje
  let prioridad := calcular_prioridad mensaje urgencia
  let entidades := extraer_entidades mensaje
  let sentimientos := analizar_sentimientos mensaje
  let evidencias := evaluar_evidencias mensaje
  let alertas := generar_alertas mensaje urgencia prioridad
  let recomendaciones := generar_recomendaciones urgencia categoria evidencias alertas
  { timestamp_analisis := now_iso,
    urgencia :=
      { nivel := urgencia.name,
        valor := urgencia.value,
        descripcion := _get_descripcion_urgencia urgencia },
    categoria :=
      { sugerida := categoria,
        confianza := _calcular_confianza_categoria mensaje categoria,
        alternativas := _get_categorias_alternativas mensaje },
    prioridad :=
      { puntuacion := prioridad,
        nivel := _get_nivel_prioridad prioridad,
        justificacion := _get_justificacion_prioridad prioridad },
    entidades := entidades,
    sentimientos := sentimientos,
    evidencias := evidencias,
    alertas := alertas,
    recomendaciones := recomendaciones,
    requiere_atencion_inmediata := _requiere_atencion_inmediata urgencia alertas,
    puntuacion_veracidad := _calcular_veracidad evidencias entidades,
    resumen_ejecutivo := _generar_resumen_ejecutivo mensaje urgencia categoria alertas }

/-- Calling the engine with `None` (or any non-string): line 191 evaluates
`mensaje.lower()`, which raises `AttributeError`.  The raised exception is
modeled as an `Except.error`; a string input is analyzed normally. -/
def analizar_denuncia_completa_entrada (mensaje : Option String) (now_iso : String) :
    Except String AnalisisCompleto :=
  match mensaje with
  | none => .error "AttributeError"
  | some s => .ok (analizar_denuncia_completa s now_iso)

/-- The guard of `gestor.procesar_denuncia` (gestor.py lines 33-34):
`if not mensaje or not mensaje.strip()` — true for `None`, the empty string
and whitespace-only strings, in which case the gestor returns its
`_resultado_mensaje_vacio()` error dict (with `procesamiento_exitoso=False`)
without invoking any analyzer. -/
def procesar_denuncia_entrada_vacia (mensaje : Option String) : Bool :=
  match mensaje with
  | none => true
  | some s => s == "" || pyStrip s == ""

/-! ### Spec-side formulations

The following definitions follow the specification's words (not the source
code); the claims compare them against the source-derived definitions
above. -/

/-- The urgency score as the specification states it: a flat weighted sum of
the pattern match counts, keyword occurrence counts and the two bonuses. -/
def specUrgencyScore (m : String) : ℚ :=
  let ml := strToLower m
  2 * ((patrones_urgencia_critica.map (fun ws => (countWordPattern ws ml : ℚ))).sum)
  + 3 * ((patrones_violencia.map (fun ws => (countWordPattern ws ml : ℚ))).sum)
  + 1.5 * ((palabras_criticas.map (fun k => (pyCount k ml : ℚ))).sum)
  + (if 3 ≤ pyCount "!" m then (2 : ℚ) else 0)
  + (if 3 ≤ ((pySplit m).filter (fun p => pyIsUpper p && decide (2 < p.length))).length
     then (1 : ℚ) else 0)

/-- The priority formula as claim C5 states it, reading "rounded to the
nearest integer" as the standard rounding (`round`, halves away from zero
upward) rather than Python's round-half-to-even. -/
def specPrioridadRoundNearest (m : String) : ℤ :=
  let ml := strToLower m
  round (min (((detectar_urgencia m).value : ℚ)
    + min ((countWordPattern ["prueba", "evidencia", "documento", "testigo"] ml : ℚ) * 0.5) 1
    + min ((reCount re_tiempo_inmediato ml : ℚ) * 0.3) 0.8
    + min ((countWordPattern ["persona", "gente", "todos", "muchos", "varios"] ml : ℚ) * 0.2) 0.6
    + min ((countWordPattern ["empresa", "organización", "departamento", "todos"] ml : ℚ) * 0.3) 0.7)
    5)

/-- Total number of violence-pattern matches (summed over the four pattern
groups), the quantity claim C4 reads the alert threshold against. -/
def totalViolenceMatches (m : String) : Nat :=
  (patrones_violencia.map (fun ws => countWordPattern ws (strToLower m))).sum

/-- `t` with `n` further space-separated occurrences of `k` appended. -/
def appendOcurrencias (t k : String) : Nat → String
  | 0 => t
  | n + 1 => appendOcurrencias t k n ++ " " ++ k

/-- The raw (bonus-free) pattern score of a category looked up by name; 0 for
a name outside the table. -/
def categoriaScore (c : String) (m : String) : Nat :=
  match patrones_categorias.find? (fun cp => cp.1 == c) with
  | some cp => categoria_puntuacion_base cp.2 (strToLower m)
  | none => 0

/-- Twice the urgency score, as a natural number.  Rational arithmetic does
not reduce inside the kernel, so concrete urgency evaluations go through this
scaled integer mirror (all weights of the source are multiples of 0.5). -/
def urgNatScore2 (m : String) : Nat :=
  let ml := strToLower m
  4 * ((patrones_urgencia_critica.map (fun ws => countWordPattern ws ml)).sum)
  + 6 * ((patrones_violencia.map (fun ws => countWordPattern ws ml)).sum)
  + 3 * ((palabras_criticas.map (fun k => pyCount k ml)).sum)
  + (if 3 ≤ pyCount "!" m then 4 else 0)
  + (if 3 ≤ ((pySplit m).filter (fun p => pyIsUpper p && decide (2 < p.length))).length
     then 2 else 0)

/-- The tier thresholds on the doubled integer score. -/
def nivelFromNat2 (n : Nat) : NivelUrgencia :=
  if 24 ≤ n then .EMERGENCIA
  else if 16 ≤ n then .CRITICA
  else if 10 ≤ n then .ALTA
  else if 4 ≤ n then .MEDIA
  else .BAJA

/-! ## Theorems -/

/-! ### Helper lemmas -/

/-- A text that does not contain `p` as a substring has occurrence count 0. -/
theorem countSubstrGo_eq_zero_of_not_isSubstr (p : List Char) :
    ∀ l, isSubstr p l = false → countSubstrGo p l 0 = 0 := by
  intro l
  induction l with
  | nil => intro _; rfl
  | cons c rest ih =>
    intro h
    rw [isSubstr, Bool.or_eq_false_iff] at h
    rw [countSubstrGo, if_neg (by simp [h.1])]
    exact ih h.2

theorem pyCount_eq_zero_of_not_contains (k ml : String) (h : pyContains k ml = false) :
    pyCount k ml = 0 :=
  countSubstrGo_eq_zero_of_not_isSubstr k.data ml.data h

/-- Each critical-keyword step of the urgency loop adds exactly
`1.5 * count`. -/
theorem urgency_keyword_step (k ml : String) (acc : ℚ) :
    (if pyContains k ml then acc + (pyCount k ml : ℚ) * 1.5 else acc)
      = acc + 1.5 * (pyCount k ml : ℚ) := by
  by_cases h : pyContains k ml
  · rw [if_pos h]; ring
  · rw [if_neg h, pyCount_eq_zero_of_not_contains k ml (by simpa using h)]
    norm_num

/-- Turning the accumulator-style flat bonus into an additive term. -/
theorem ite_bonus_add (c : Prop) [Decidable c] (x y : ℚ) :
    (if c then x + y else x) = x + (if c then y else 0) := by
  split_ifs <;> simp

/-- The urgency tier thresholds, as if-and-only-if bounds on the score. -/
theorem nivelFromScore_iff (q : ℚ) :
    (nivelFromScore q = .EMERGENCIA ↔ 12 ≤ q) ∧
    (nivelFromScore q = .CRITICA ↔ 8 ≤ q ∧ q < 12) ∧
    (nivelFromScore q = .ALTA ↔ 5 ≤ q ∧ q < 8) ∧
    (nivelFromScore q = .MEDIA ↔ 2 ≤ q ∧ q < 5) ∧
    (nivelFromScore q = .BAJA ↔ q < 2) := by
  unfold nivelFromScore
  by_cases h1 : 12 ≤ q
  · rw [if_pos h1]
    exact ⟨iff_of_true rfl h1,
           iff_of_false (by decide) (fun hc => by linarith [hc.2]),
           iff_of_false (by decide) (fun hc => by linarith [hc.2]),
           iff_of_false (by decide) (fun hc => by linarith [hc.2]),
           iff_of_false (by decide) (fun hc => by linarith)⟩
  · rw [if_neg h1]
    push_neg at h1
    by_cases h2 : 8 ≤ q
    · rw [if_pos h2]
      exact ⟨iff_of_false (by decide) (fun hc => by linarith),
             iff_of_true rfl ⟨h2, h1⟩,
             iff_of_false (by decide) (fun hc => by linarith [hc.2]),
             iff_of_false (by decide) (fun hc => by linarith [hc.2]),
             iff_of_false (by decide) (fun hc => by linarith)⟩
    · rw [if_neg h2]
      push_neg at h2
      by_cases h3 : 5 ≤ q
      · rw [if_pos h3]
        exact ⟨iff_of_false (by decide) (fun hc => by linarith),
               iff_of_false (by decide) (fun hc => by linarith [hc.1]),
               iff_of_true rfl ⟨h3, h2⟩,
               iff_of_false (by decide) (fun hc => by linarith [hc.2]),
               iff_of_false (by decide) (fun hc => by linarith)⟩
      · rw [if_neg h3]
        push_neg at h3
        by_cases h4 : 2 ≤ q
        · rw [if_pos h4]
          exact ⟨iff_of_false (by decide) (fun hc => by linarith),
                 iff_of_false (by decide) (fun hc => by linarith [hc.1]),
                 iff_of_false (by decide) (fun hc => by linarith [hc.1]),
                 iff_of_true rfl ⟨h4, h3⟩,
                 iff_of_false (by decide) (fun hc => by linarith)⟩
        · rw [if_neg h4]
          push_neg at h4
          exact ⟨iff_of_false (by decide) (fun hc => by linarith),
                 iff_of_false (by decide) (fun hc => by linarith [hc.1]),
                 iff_of_false (by decide) (fun hc => by linarith [hc.1]),
                 iff_of_false (by decide) (fun hc => by linarith [hc.1]),
                 iff_of_true rfl h4⟩

/-- The accumulated urgency score equals the flat weighted sum the
specification describes. -/
theorem puntuacion_urgencia_eq_spec (m : String) :
    puntuacion_urgencia m = specUrgencyScore m := by
  unfold puntuacion_urgencia specUrgencyScore
  simp only [patrones_urgencia_critica, patrones_violencia, palabras_criticas,
    List.foldl_cons, List.foldl_nil, List.map_cons, List.map_nil,
    List.sum_cons, List.sum_nil]
  simp only [urgency_keyword_step]
  simp only [ite_bonus_add]
  ring

/-- The urgency score is half the integer mirror score. -/
theorem puntuacion_urgencia_eq_half_nat (m : String) :
    puntuacion_urgencia m = (urgNatScore2 m : ℚ) / 2 := by
  rw [puntuacion_urgencia_eq_spec]
  unfold specUrgencyScore urgNatScore2
  simp only [patrones_urgencia_critica, patrones_violencia, palabras_criticas,
    List.map_cons, List.map_nil, List.sum_cons, List.sum_nil]
  split_ifs <;> (push_cast; ring)

/-- The detected tier can be read off the integer mirror score. -/
theorem detectar_urgencia_eq_nat (m : String) :
    detectar_urgencia m = nivelFromNat2 (urgNatScore2 m) := by
  unfold detectar_urgencia nivelFromScore nivelFromNat2
  rw [puntuacion_urgencia_eq_half_nat]
  have key : ∀ a b : ℕ, 2 * a = b →
      (((a : ℚ) ≤ (urgNatScore2 m : ℚ) / 2) = (b ≤ urgNatScore2 m)) := by
    intro a b hab
    apply propext
    rw [le_div_iff₀ (by norm_num : (0:ℚ) < 2), mul_comm, ← hab]
    exact_mod_cast Iff.rfl
  have e1 := key 12 24 rfl
  have e2 := key 8 16 rfl
  have e3 := key 5 10 rfl
  have e4 := key 2 4 rfl
  push_cast at e1 e2 e3 e4
  simp only [e1, e2, e3, e4]

/-! ### Claim C1 -/

/-- C1: for every input text, the urgency score computed by
`detectar_urgencia` equals the weighted sum of 2 per urgency-critical pattern
match, 3 per violence pattern match, 1.5 per occurrence (repetitions counted)
of each fixed critical keyword, +2 for three or more `!` characters and +1 for
three or more all-caps words of length > 2; and the resulting tier is
EMERGENCIA iff score ≥ 12, CRITICA iff 8 ≤ score < 12, ALTA iff
5 ≤ score < 8, MEDIA iff 2 ≤ score < 5, and BAJA otherwise. -/
theorem C1_detectar_urgencia_score_tiers (m : String) :
    puntuacion_urgencia m = specUrgencyScore m ∧
    (detectar_urgencia m = .EMERGENCIA ↔ 12 ≤ specUrgencyScore m) ∧
    (detectar_urgencia m = .CRITICA ↔ 8 ≤ specUrgencyScore m ∧ specUrgencyScore m < 12) ∧
    (detectar_urgencia m = .ALTA ↔ 5 ≤ specUrgencyScore m ∧ specUrgencyScore m < 8) ∧
    (detectar_urgencia m = .MEDIA ↔ 2 ≤ specUrgencyScore m ∧ specUrgencyScore m < 5) ∧
    (detectar_urgencia m = .BAJA ↔ specUrgencyScore m < 2) := by
  have hs := puntuacion_urgencia_eq_spec m
  have ht := nivelFromScore_iff (specUrgencyScore m)
  unfold detectar_urgencia
  rw [hs]
  exact ⟨rfl, ht.1, ht.2.1, ht.2.2.1, ht.2.2.2.1, ht.2.2.2.2⟩

/-! ### Claim C2 -/

/-- C2 counterexample: two calls of the full analysis on the same string read
the wall clock (modeled as the `now_iso` argument) at different instants, and
the returned composite results differ in the `timestamp_analisis` field, so
they are not identical in every field. -/
theorem C2_analisis_no_identico :
    analizar_denuncia_completa "" "2024-01-01T00:00:00" ≠
      analizar_denuncia_completa "" "2024-01-01T00:00:01" := by
  intro h
  have h2 := congrArg AnalisisCompleto.timestamp_analisis h
  exact (by decide : ("2024-01-01T00:00:00" : String) ≠ "2024-01-01T00:00:01") h2

/-- C2 amended: except for the `timestamp_analisis` field, every field of the
composite result is a pure function of the input text alone — two calls with
the same string at different clock readings agree on all analysis fields. -/
theorem C2_determinismo_salvo_timestamp (m t1 t2 : String) :
    (analizar_denuncia_completa m t1).urgencia = (analizar_denuncia_completa m t2).urgencia ∧
    (analizar_denuncia_completa m t1).categoria = (analizar_denuncia_completa m t2).categoria ∧
    (analizar_denuncia_completa m t1).prioridad = (analizar_denuncia_completa m t2).prioridad ∧
    (analizar_denuncia_completa m t1).entidades = (analizar_denuncia_completa m t2).entidades ∧
    (analizar_denuncia_completa m t1).sentimientos = (analizar_denuncia_completa m t2).sentimientos ∧
    (analizar_denuncia_completa m t1).evidencias = (analizar_denuncia_completa m t2).evidencias ∧
    (analizar_denuncia_completa m t1).alertas = (analizar_denuncia_completa m t2).alertas ∧
    (analizar_denuncia_completa m t1).recomendaciones = (analizar_denuncia_completa m t2).recomendaciones ∧
    (analizar_denuncia_completa m t1).requiere_atencion_inmediata =
      (analizar_denuncia_completa m t2).requiere_atencion_inmediata ∧
    (analizar_denuncia_completa m t1).puntuacion_veracidad =
      (analizar_denuncia_completa m t2).puntuacion_veracidad ∧
    (analizar_denuncia_completa m t1).resumen_ejecutivo =
      (analizar_denuncia_completa m t2).resumen_ejecutivo :=
  ⟨rfl, rfl, rfl, rfl, rfl, rfl, rfl, rfl, rfl, rfl, rfl⟩

/-! ### Claim C3 -/

/-- C3: analyzing the empty string yields urgency tier BAJA, selected
category `otros`, credibility `muy_baja`, no alerts, and
`requiere_atencion_inmediata = false`. -/
theorem C3_analisis_cadena_vacia (now_iso : String) :
    (analizar_denuncia_completa "" now_iso).urgencia.nivel = "BAJA" ∧
    (analizar_denuncia_completa "" now_iso).categoria.sugerida = "otros" ∧
    (analizar_denuncia_completa "" now_iso).evidencias.nivel_credibilidad = "muy_baja" ∧
    (analizar_denuncia_completa "" now_iso).alertas = [] ∧
    (analizar_denuncia_completa "" now_iso).requiere_atencion_inmediata = false := by
  have hdet : detectar_urgencia "" = .BAJA := by
    rw [detectar_urgencia_eq_nat]; decide
  refine ⟨?_, ?_, ?_, ?_, ?_⟩
  · show (detectar_urgencia "").name = "BAJA"
    rw [hdet]
    rfl
  · show sugerir_categoria_mejorada "" = "otros"
    decide
  · show (evaluar_evidencias "").nivel_credibilidad = "muy_baja"
    unfold evaluar_evidencias
    norm_num [show ((tipos_evidencia_tabla.map
          (fun tp => (tp.1, countWordPattern tp.2 (strToLower "")))).filter
          (fun x => 0 < x.2)) = [] from by decide,
      show reCount re_horas_simple "" = 0 from by decide,
      show reCount re_fechas_simple "" = 0 from by decide,
      show reCount re_lugar_numerado (strToLower "") = 0 from by decide]
  · show generar_alertas "" (detectar_urgencia "")
        (calcular_prioridad "" (detectar_urgencia "")) = []
    rw [hdet]
    decide
  · show _requiere_atencion_inmediata (detectar_urgencia "")
        (generar_alertas "" (detectar_urgencia "")
          (calcular_prioridad "" (detectar_urgencia ""))) = false
    rw [hdet]
    decide

/-! ### Claim C5 -/

/-- C5 counterexample: on `"urgente prueba"` the exact factor sum is 2.5;
Python's `round` (half to even, which the code uses) gives priority 2, while
rounding to the nearest integer with halves rounded up gives 3.  So the
composite priority does not equal the spec's formula under the standard
reading of "rounded to the nearest integer". -/
theorem C5_prioridad_redondeo_mitad :
    calcular_prioridad "urgente prueba" (detectar_urgencia "urgente prueba") = 2 ∧
    specPrioridadRoundNearest "urgente prueba" = 3 := by
  have hdet : detectar_urgencia "urgente prueba" = .MEDIA := by
    rw [detectar_urgencia_eq_nat]; decide
  have hc1 : countWordPattern ["prueba", "evidencia", "documento", "testigo"]
      (strToLower "urgente prueba") = 1 := by decide
  have hc2 : reCount re_tiempo_inmediato (strToLower "urgente prueba") = 0 := by decide
  have hc3 : countWordPattern ["persona", "gente", "todos", "muchos", "varios"]
      (strToLower "urgente prueba") = 0 := by decide
  have hc4 : countWordPattern ["empresa", "organización", "departamento", "todos"]
      (strToLower "urgente prueba") = 0 := by decide
  have hq : min (((NivelUrgencia.MEDIA.value : ℚ))
      + min (((1:ℕ) : ℚ) * 0.5) 1 + min (((0:ℕ) : ℚ) * 0.3) 0.8
      + min (((0:ℕ) : ℚ) * 0.2) 0.6 + min (((0:ℕ) : ℚ) * 0.3) 0.7) 5 = 5 / 2 := by
    norm_num [NivelUrgencia.value, min_def]
  have hfloor : ⌊(5 / 2 : ℚ)⌋ = 2 := by
    rw [Int.floor_eq_iff]
    norm_num
  constructor
  · rw [hdet]
    simp only [calcular_prioridad]
    rw [hc1, hc2, hc3, hc4]
    rw [show ∀ b f1 f2 f3 f4 : ℚ, b + (0 + f1 + f2 + f3 + f4) = b + f1 + f2 + f3 + f4
        from fun _ _ _ _ _ => by ring]
    rw [hq]
    simp only [pythonRound]
    rw [hfloor]
    norm_num
  · simp only [specPrioridadRoundNearest]
    rw [hdet, hc1, hc2, hc3, hc4, hq]
    rw [round_eq]
    rw [show (5 / 2 + 1 / 2 : ℚ) = ((3 : ℤ) : ℚ) by norm_num]
    exact Int.floor_intCast 3

/-- C5 amended: for every text, the composite priority equals the claimed
formula — urgency rank plus the four capped factors, capped at 5 — with the
final rounding performed half-to-even (Python's `round`) instead of
half-up. -/
theorem C5_prioridad_formula_banker (m : String) :
    calcular_prioridad m (detectar_urgencia m) =
      pythonRound (min (((detectar_urgencia m).value : ℚ)
        + min ((countWordPattern ["prueba", "evidencia", "documento", "testigo"] (strToLower m) : ℚ) * 0.5) 1
        + min ((reCount re_tiempo_inmediato (strToLower m) : ℚ) * 0.3) 0.8
        + min ((countWordPattern ["persona", "gente", "todos", "muchos", "varios"] (strToLower m) : ℚ) * 0.2) 0.6
        + min ((countWordPattern ["empresa", "organización", "departamento", "todos"] (strToLower m) : ℚ) * 0.3) 0.7)
        5) := by
  simp only [calcular_prioridad]
  have h : ∀ b f1 f2 f3 f4 : ℚ, b + (0 + f1 + f2 + f3 + f4) = b + f1 + f2 + f3 + f4 :=
    fun _ _ _ _ _ => by ring
  rw [h]

/-! ### Claim C7 -/

/-- C7 counterexample: with input `None` the engine does not produce any
analysis result at all (no normalization to the empty string happens):
`mensaje.lower()` raises, modeled as an error value. -/
theorem C7_none_no_analizado :
    ¬ ∃ r, analizar_denuncia_completa_entrada none "2024-01-01T00:00:00" = Except.ok r := by
  rintro ⟨r, h⟩
  simp [analizar_denuncia_completa_entrada] at h

/-- C7 amended: a `None` input is not normalized to the empty string; the
engine raises `AttributeError` (modeled as an error value), and the gestor's
guard short-circuits `None`/empty input to its error result without invoking
any analyzer. -/
theorem C7_none_error_y_guardia :
    (∀ now_iso, analizar_denuncia_completa_entrada none now_iso = Except.error "AttributeError") ∧
    procesar_denuncia_entrada_vacia none = true :=
  ⟨fun _ => rfl, rfl⟩

/-! ### Claim C9 -/

/-- C9: whenever the detected urgency tier has rank ≥ 3, the composite result
requires immediate attention, because the `urgencia_critica` alert (priority
`alta`) is emitted at rank ≥ 3 and any `alta`/`crítica`-priority alert sets
the flag. -/
theorem C9_urgencia_alta_atencion_inmediata (m : String)
    (h : 3 ≤ (detectar_urgencia m).value) :
    _requiere_atencion_inmediata (detectar_urgencia m)
      (generar_alertas m (detectar_urgencia m)
        (calcular_prioridad m (detectar_urgencia m))) = true := by
  unfold _requiere_atencion_inmediata
  by_cases h4 : 4 ≤ (detectar_urgencia m).value
  · rw [if_pos h4]
  · rw [if_neg h4, decide_eq_true_eq]
    simp only [generar_alertas]
    rw [if_pos (show umbrales_alerta .URGENCIA_CRITICA ≤ (detectar_urgencia m).value from h)]
    simp [List.filter_append, List.filter]

/-- C9 witness: `"peligro amenaza"` scores 7, tier ALTA (rank 3), and the
flag is set. -/
theorem C9_urgencia_alta_atencion_inmediata_witness :
    3 ≤ (detectar_urgencia "peligro amenaza").value ∧
    _requiere_atencion_inmediata (detectar_urgencia "peligro amenaza")
      (generar_alertas "peligro amenaza" (detectar_urgencia "peligro amenaza")
        (calcular_prioridad "peligro amenaza" (detectar_urgencia "peligro amenaza"))) = true :=
  ⟨by rw [detectar_urgencia_eq_nat]; decide,
   C9_urgencia_alta_atencion_inmediata "peligro amenaza"
     (by rw [detectar_urgencia_eq_nat]; decide)⟩

/-! ### Claim C10 -/

/-- C10: whenever the selected category is the fallback `otros`, the reported
confidence is exactly 0.5 (the early-return branch for a category outside the
pattern table), not a pattern-derived value. -/
theorem C10_confianza_otros (m : String)
    (h : sugerir_categoria_mejorada m = "otros") :
    _calcular_confianza_categoria m (sugerir_categoria_mejorada m) = 0.5 := by
  rw [h]
  rfl

/-- C10 witness: the empty string selects `otros` and gets confidence 0.5. -/
theorem C10_confianza_otros_witness :
    sugerir_categoria_mejorada "" = "otros" ∧
    _calcular_confianza_categoria "" (sugerir_categoria_mejorada "") = 0.5 :=
  ⟨by decide, C10_confianza_otros "" (by decide)⟩

/-! ### Claim C4 -/

/-- C4 counterexample: `"golpe pegar"` contains exactly 2 violence-pattern
matches (both in the first pattern group), yet no `contenido_violento` alert
is emitted — the code thresholds the number of pattern groups with a match
(`re.search` per pattern), not the total match count. -/
theorem C4_contenido_violento_conteo_total :
    totalViolenceMatches "golpe pegar" = 2 ∧
    "contenido_violento" ∉
      (generar_alertas "golpe pegar" (detectar_urgencia "golpe pegar")
        (calcular_prioridad "golpe pegar" (detectar_urgencia "golpe pegar"))).map
        Alerta.tipo := by
  have hdet : detectar_urgencia "golpe pegar" = .ALTA := by
    rw [detectar_urgencia_eq_nat]; decide
  rw [hdet]
  exact ⟨by decide, by decide⟩

/-- C4 amended: the `contenido_violento` alert is emitted iff at least 2 of
the 4 violence pattern groups have a match in the text; a text with exactly 2
groups matched and no direct-threat content (`"golpe intimidar"`) triggers
`contenido_violento` but not `amenaza_directa`. -/
theorem C4_contenido_violento_grupos :
    (∀ (m : String) (u : NivelUrgencia) (p : ℤ),
      "contenido_violento" ∈ (generar_alertas m u p).map Alerta.tipo ↔
        2 ≤ violencia_patrones_presentes (strToLower m)) ∧
    ("contenido_violento" ∈
      (generar_alertas "golpe intimidar" (detectar_urgencia "golpe intimidar")
        (calcular_prioridad "golpe intimidar" (detectar_urgencia "golpe intimidar"))).map
        Alerta.tipo ∧
     "amenaza_directa" ∉
      (generar_alertas "golpe intimidar" (detectar_urgencia "golpe intimidar")
        (calcular_prioridad "golpe intimidar" (detectar_urgencia "golpe intimidar"))).map
        Alerta.tipo) := by
  constructor
  · intro m u p
    simp only [generar_alertas, umbrales_alerta]
    split_ifs <;> simp_all
  · have hdet : detectar_urgencia "golpe intimidar" = .ALTA := by
      rw [detectar_urgencia_eq_nat]; decide
    rw [hdet]
    exact ⟨by decide, by decide⟩

/-! ### Claim C6 -/

/-- C6 counterexample: for the input `"fraude"` the selected category is
`fraude`, and the alternative list is `["fraude"]` — it contains the selected
category, because `_get_categorias_alternativas` never excludes it. -/
theorem C6_alternativas_contienen_seleccionada :
    sugerir_categoria_mejorada "fraude" = "fraude" ∧
    "fraude" ∈ _get_categorias_alternativas "fraude" :=
  ⟨by decide, by decide⟩

/-- Every entry of the bonus-free score list carries its category's raw
score, which is positive after the filter. -/
theorem mem_puntuaciones_alternativas (m : String) (p : String × Nat)
    (hp : p ∈ puntuaciones_alternativas m) :
    categoriaScore p.1 m = p.2 ∧ 0 < p.2 := by
  simp only [puntuaciones_alternativas] at hp
  rw [List.mem_filter] at hp
  obtain ⟨hmem, hpos⟩ := hp
  refine ⟨?_, by simpa using hpos⟩
  simp only [patrones_categorias, List.map_cons, List.map_nil, List.mem_cons,
    List.not_mem_nil, or_false] at hmem
  rcases hmem with rfl | rfl | rfl | rfl | rfl | rfl <;> rfl

/-- C6 amended: the alternative-category list contains only categories with
a nonzero raw (bonus-free) pattern-match score, is ranked in descending score
order, and has at most 3 entries — the original claim with its
"distinct from the selected category" conjunct dropped, which is the one part
the counterexample refutes. -/
theorem C6_alternativas_propiedades (m : String) :
    (∀ c ∈ _get_categorias_alternativas m, 0 < categoriaScore c m) ∧
    List.Sorted (fun a b : String => categoriaScore b m ≤ categoriaScore a m)
      (_get_categorias_alternativas m) ∧
    (_get_categorias_alternativas m).length ≤ 3 := by
  haveI instTot : IsTotal (String × Nat) (fun a b : String × Nat => b.2 ≤ a.2) :=
    ⟨fun a b => le_total b.2 a.2⟩
  haveI instTrans : IsTrans (String × Nat) (fun a b : String × Nat => b.2 ≤ a.2) :=
    ⟨fun _ _ _ h1 h2 => le_trans h2 h1⟩
  have hmemL0 : ∀ p ∈ (((puntuaciones_alternativas m).insertionSort
        (fun a b => b.2 ≤ a.2)).take 3),
      p ∈ puntuaciones_alternativas m := fun p hp =>
    (List.perm_insertionSort (fun a b : String × Nat => b.2 ≤ a.2)
      (puntuaciones_alternativas m)).mem_iff.mp (List.mem_of_mem_take hp)
  refine ⟨?_, ?_, ?_⟩
  · intro c hc
    simp only [_get_categorias_alternativas] at hc
    rw [List.mem_map] at hc
    obtain ⟨p, hp, rfl⟩ := hc
    have h := mem_puntuaciones_alternativas m p (hmemL0 p hp)
    rw [h.1]
    exact h.2
  · have hsorted : List.Sorted (fun a b : String × Nat => b.2 ≤ a.2)
        ((puntuaciones_alternativas m).insertionSort (fun a b => b.2 ≤ a.2)) :=
      List.sorted_insertionSort _ _
    have htake : List.Pairwise (fun a b : String × Nat => b.2 ≤ a.2)
        (((puntuaciones_alternativas m).insertionSort (fun a b => b.2 ≤ a.2)).take 3) :=
      hsorted.sublist (List.take_sublist 3 _)
    show List.Pairwise _ (_get_categorias_alternativas m)
    simp only [_get_categorias_alternativas]
    rw [List.pairwise_map]
    exact htake.imp_of_mem (fun {a b} ha hb hr => by
      have ea := (mem_puntuaciones_alternativas m a (hmemL0 a ha)).1
      have eb := (mem_puntuaciones_alternativas m b (hmemL0 b hb)).1
      rw [ea, eb]
      exact hr)
  · simp only [_get_categorias_alternativas, List.length_map, List.length_take]
    exact min_le_left _ _

/-- C6 amended, instantiated at the counterexample input. -/
theorem C6_alternativas_propiedades_witness :
    (∀ c ∈ _get_categorias_alternativas "fraude", 0 < categoriaScore c "fraude") ∧
    List.Sorted (fun a b : String => categoriaScore b "fraude" ≤ categoriaScore a "fraude")
      (_get_categorias_alternativas "fraude") ∧
    (_get_categorias_alternativas "fraude").length ≤ 3 :=
  C6_alternativas_propiedades "fraude"

/-! ### Claim C8 -/

/-- Splitting `runsBy` at a separator character that is not kept. -/
theorem runsByAux_append_sep (keep : Char → Bool) (x : Char) (hx : keep x = false)
    (b : List Char) :
    ∀ (a acc : List Char),
      runsByAux keep acc (a ++ x :: b) = runsByAux keep acc a ++ runsByAux keep [] b := by
  intro a
  induction a with
  | nil =>
    intro acc
    simp [runsByAux, hx]
  | cons c a' ih =>
    intro acc
    by_cases hc : keep c
    · simp only [List.cons_append, runsByAux, hc, if_true, List.append_eq]
      exact ih (c :: acc)
    · simp only [List.cons_append, runsByAux, hc, if_false, Bool.false_eq_true,
        List.append_eq]
      rw [ih []]
      rw [List.append_assoc]

/-- A text shorter than the needle has occurrence count 0. -/
theorem countSubstrGo_eq_zero_of_short (p : List Char) :
    ∀ (A : List Char) (skip : Nat), A.length < p.length → countSubstrGo p A skip = 0 := by
  intro A
  induction A with
  | nil => intro _ _; rfl
  | cons c rest ih =>
    intro skip hlen
    cases skip with
    | succ s =>
      rw [countSubstrGo]
      exact ih s (lt_of_le_of_lt (by simp) hlen)
    | zero =>
      have hnp : ¬ (p ≠ [] ∧ p.isPrefixOf (c :: rest)) := by
        rintro ⟨-, hpre⟩
        exact absurd (List.isPrefixOf_iff_prefix.mp hpre).length_le (by omega)
      rw [countSubstrGo, if_neg hnp]
      exact ih 0 (lt_of_le_of_lt (by simp) hlen)

/-- Appending text never decreases the non-overlapping occurrence count. -/
theorem countSubstrGo_le_append (p B : List Char) :
    ∀ (A : List Char) (skip : Nat),
      countSubstrGo p A skip ≤ countSubstrGo p (A ++ B) skip := by
  intro A
  induction A with
  | nil => intro skip; exact Nat.zero_le _
  | cons c rest ih =>
    intro skip
    cases skip with
    | succ s =>
      rw [List.cons_append, countSubstrGo, countSubstrGo]
      exact ih s
    | zero =>
      by_cases h : p ≠ [] ∧ p.isPrefixOf (c :: rest)
      · have h' : p ≠ [] ∧ p.isPrefixOf (c :: (rest ++ B)) := by
          refine ⟨h.1, List.isPrefixOf_iff_prefix.mpr ?_⟩
          have := (List.isPrefixOf_iff_prefix.mp h.2).trans (List.prefix_append (c :: rest) B)
          simpa using this
        rw [List.cons_append, countSubstrGo, countSubstrGo, if_pos h, if_pos h']
        exact Nat.add_le_add_right (ih (p.length - 1)) 1
      · rw [List.cons_append, countSubstrGo, countSubstrGo, if_neg h]
        by_cases h2 : p ≠ [] ∧ p.isPrefixOf (c :: (rest ++ B))
        · rw [if_pos h2]
          have hlen : rest.length < p.length := by
            by_contra hle
            push_neg at hle
            apply h
            have hpre : p <+: (c :: (rest ++ B)) := List.isPrefixOf_iff_prefix.mp h2.2
            have heq : p = (c :: (rest ++ B)).take p.length := List.prefix_iff_eq_take.mp hpre
            have htake : (c :: (rest ++ B)).take p.length = (c :: rest).take p.length := by
              rw [show c :: (rest ++ B) = (c :: rest) ++ B from by simp]
              exact List.take_append_of_le_length (by simp; omega)
            refine ⟨h2.1, List.isPrefixOf_iff_prefix.mpr ?_⟩
            rw [List.prefix_iff_eq_take, ← htake]
            exact heq
          rw [countSubstrGo_eq_zero_of_short p rest 0 hlen]
          exact Nat.zero_le _
        · rw [if_neg h2]
          exact ih 0

/-- String-level append data equation. -/
theorem str_data_append (a b : String) : (a ++ b).data = a.data ++ b.data := rfl

/-- Data of `t ++ " " ++ w`. -/
theorem str_sep_data (t w : String) : (t ++ " " ++ w).data = t.data ++ (' ' :: w.data) := by
  simp [str_data_append]

/-- Data of the lowering of `t ++ " " ++ w`. -/
theorem strToLower_sep_data (t w : String) :
    (strToLower (t ++ " " ++ w)).data =
      (strToLower t).data ++ (' ' :: (strToLower w).data) := by
  simp only [strToLower, str_sep_data, List.map_append, List.map_cons]
  rfl

/-- A `\b`-word-alternation count splits across a space separator. -/
theorem countWordPattern_sep (ws : List String) (t w : String) :
    countWordPattern ws (strToLower (t ++ " " ++ w)) =
      countWordPattern ws (strToLower t) + countWordPattern ws (strToLower w) := by
  unfold countWordPattern tokens runsBy
  rw [strToLower_sep_data,
    runsByAux_append_sep isWordChar ' ' (by decide) ((strToLower w).data)
      ((strToLower t).data) []]
  rw [List.filter_append, List.length_append]

/-- Substring occurrence counts never decrease under appending ` w` (lowered
text). -/
theorem pyCount_le_sep (k t w : String) :
    pyCount k (strToLower t) ≤ pyCount k (strToLower (t ++ " " ++ w)) := by
  unfold pyCount countSubstr
  rw [strToLower_sep_data]
  exact countSubstrGo_le_append _ _ _ 0

/-- Substring occurrence counts never decrease under appending ` w` (raw
text). -/
theorem pyCount_le_sep_raw (k t w : String) :
    pyCount k t ≤ pyCount k (t ++ " " ++ w) := by
  unfold pyCount countSubstr
  rw [str_sep_data]
  exact countSubstrGo_le_append _ _ _ 0

/-- `str.split()` splits across a space separator. -/
theorem pySplit_sep (t w : String) :
    pySplit (t ++ " " ++ w) = pySplit t ++ pySplit w := by
  unfold pySplit runsBy
  rw [str_sep_data,
    runsByAux_append_sep (fun c => !pySpace c) ' ' (by decide) w.data t.data []]
  rw [List.map_append]

/-- Monotonicity of the flat threshold bonuses. -/
theorem ite_nat_bonus_mono {a b : Nat} (h : a ≤ b) (c x : Nat) :
    (if c ≤ a then x else 0) ≤ (if c ≤ b then x else 0) := by
  split_ifs with h1 h2
  · exact le_refl x
  · exact absurd (h1.trans h) h2
  · exact Nat.zero_le x
  · exact le_refl 0

/-- Appending a space-separated word never decreases the integer mirror of
the urgency score. -/
theorem urgNatScore2_append_ge (t w : String) :
    urgNatScore2 t ≤ urgNatScore2 (t ++ " " ++ w) := by
  unfold urgNatScore2
  simp only [patrones_urgencia_critica, patrones_violencia, palabras_criticas,
    List.map_cons, List.map_nil, List.sum_cons, List.sum_nil]
  simp only [countWordPattern_sep]
  have hk1 := pyCount_le_sep "urgente" t w
  have hk2 := pyCount_le_sep "inmediato" t w
  have hk3 := pyCount_le_sep "emergencia" t w
  have hk4 := pyCount_le_sep "ayuda" t w
  have hk5 := pyCount_le_sep "socorro" t w
  have hex := pyCount_le_sep_raw "!" t w
  have hcaps : ((pySplit t).filter (fun p => pyIsUpper p && decide (2 < p.length))).length ≤
      ((pySplit (t ++ " " ++ w)).filter (fun p => pyIsUpper p && decide (2 < p.length))).length := by
    rw [pySplit_sep, List.filter_append, List.length_append]
    exact Nat.le_add_right _ _
  have hB1 := ite_nat_bonus_mono hex 3 4
  have hB2 := ite_nat_bonus_mono hcaps 3 2
  linarith

/-- Appending a space-separated word never decreases the urgency score. -/
theorem puntuacion_urgencia_append_ge (t w : String) :
    puntuacion_urgencia t ≤ puntuacion_urgencia (t ++ " " ++ w) := by
  rw [puntuacion_urgencia_eq_half_nat, puntuacion_urgencia_eq_half_nat]
  have h : (urgNatScore2 t : ℚ) ≤ urgNatScore2 (t ++ " " ++ w) := by
    exact_mod_cast urgNatScore2_append_ge t w
  linarith

/-- C8 counterexample: appending the critical keyword `"urgente"` directly
(no separator) to `"ayuda"` adds an occurrence of the keyword but destroys
the word boundary of `"ayuda"`, and the urgency score strictly decreases
(3.5 to 3.0). -/
theorem C8_concatenacion_directa_decrece :
    "urgente" ∈ palabras_criticas ∧
    puntuacion_urgencia ("ayuda" ++ "urgente") < puntuacion_urgencia "ayuda" := by
  refine ⟨by decide, ?_⟩
  rw [puntuacion_urgencia_eq_half_nat, puntuacion_urgencia_eq_half_nat]
  have h : urgNatScore2 ("ayuda" ++ "urgente") < urgNatScore2 "ayuda" := by decide
  have h' : (urgNatScore2 ("ayuda" ++ "urgente") : ℚ) < urgNatScore2 "ayuda" := by
    exact_mod_cast h
  linarith

/-- C8 amended: appending additional space-separated occurrences of a
critical keyword never decreases the urgency score. -/
theorem C8_monotonia_con_separador (t k : String) (_hk : k ∈ palabras_criticas) (n : Nat) :
    puntuacion_urgencia t ≤ puntuacion_urgencia (appendOcurrencias t k n) := by
  induction n with
  | zero => exact le_refl _
  | succ n ih => exact le_trans ih (puntuacion_urgencia_append_ge (appendOcurrencias t k n) k)

/-- C8 witness: two space-separated occurrences of `"urgente"` appended to
the empty text do not decrease the score. -/
theorem C8_monotonia_con_separador_witness :
    "urgente" ∈ palabras_criticas ∧
    puntuacion_urgencia "" ≤ puntuacion_urgencia (appendOcurrencias "" "urgente" 2) :=
  ⟨by decide, C8_monotonia_con_separador "" "urgente" (by decide) 2⟩

end Denuncias
